import Mathlib

/-!
Verification of the poster-editor image pipeline (App.tsx, CropModal.tsx,
PosterPreview). Numbers are modelled as exact rationals; where IEEE special
values matter (division by zero in the export fit computation) we use an
explicit JS-number type with Infinity and NaN.
-/

/-- A JavaScript number: a finite rational, an infinity, or NaN.
Rounding of finite values is not modelled; the claims under study are
stated up to floating rounding. -/
inductive JSNum where
  | num (q : ℚ)
  | inf
  | negInf
  | nan
deriving DecidableEq, Repr

namespace JSNum

/-- JavaScript division semantics on `JSNum` (for nonnegative-zero
denominators, as produced by the DOM sizes used here):
finite / 0 is ±Infinity (NaN for 0 / 0), finite / ±Infinity is 0,
±Infinity / finite is ±Infinity, Infinity / Infinity is NaN,
and NaN propagates. -/
def div : JSNum → JSNum → JSNum
  | num a, num b =>
      if b = 0 then (if a = 0 then nan else if 0 < a then inf else negInf)
      else num (a / b)
  | num _, inf => num 0
  | num _, negInf => num 0
  | inf, num b => if 0 ≤ b then inf else negInf
  | negInf, num b => if 0 ≤ b then negInf else inf
  | inf, inf => nan
  | inf, negInf => nan
  | negInf, inf => nan
  | negInf, negInf => nan
  | nan, _ => nan
  | _, nan => nan

/-- A `JSNum` is finite when it is an actual rational. -/
def isFinite : JSNum → Prop
  | num _ => True
  | _ => False

instance : DecidablePred isFinite := by
  intro x
  cases x <;> simp [isFinite] <;> infer_instance

end JSNum

/-- The fixed preview edge of the crop modal (CropModal.tsx,
`PREVIEW_SIZE = 320`). -/
def PREVIEW_SIZE : ℚ := 320

/-- The fixed output edge of the functional-image export (App.tsx,
`OUTPUT_SIZE = 1000`). -/
def OUTPUT_SIZE : ℚ := 1000

/-- Base-fit computation of the export compositor (App.tsx lines 726-728):
`imgRatio = naturalWidth / naturalHeight; drawW = targetEdge;
drawH = targetEdge / imgRatio`, with JavaScript division semantics. -/
def computeFit (naturalW naturalH targetEdge : JSNum) : JSNum × JSNum :=
  let imgRatio := naturalW.div naturalH
  let drawW := targetEdge
  let drawH := targetEdge.div imgRatio
  (drawW, drawH)

/-- Rescaling of the recorded crop translation from preview units to output
units (App.tsx lines 733-735): `k = targetEdge / previewEdge;
userX = x * k; userY = y * k`. -/
def rescaleUserXY (previewEdge targetEdge x y : ℚ) : ℚ × ℚ :=
  let k := targetEdge / previewEdge
  (x * k, y * k)

/-- A 2D conformal-affine map (uniform scale plus translation): the only
canvas operations the export compositor issues are `translate` and uniform
`scale`, so the canvas current-transform always has this shape.
`p ↦ (a * p.x + tx, a * p.y + ty)`. -/
structure Conform where
  a : ℚ
  tx : ℚ
  ty : ℚ
deriving DecidableEq, Repr

namespace Conform

/-- Apply the map to a point. -/
def apply (f : Conform) (p : ℚ × ℚ) : ℚ × ℚ :=
  (f.a * p.1 + f.tx, f.a * p.2 + f.ty)

/-- Composition `f ∘ g` (first `g`, then `f`); a canvas
`ctx.translate` / `ctx.scale` call post-composes the new op on the right
of the current transform. -/
def comp (f g : Conform) : Conform :=
  ⟨f.a * g.a, f.a * g.tx + f.tx, f.a * g.ty + f.ty⟩

/-- The identity transform (state of a fresh canvas / after `ctx.save`). -/
def idMap : Conform := ⟨1, 0, 0⟩

/-- `ctx.translate(x, y)`. -/
def translate (x y : ℚ) : Conform := ⟨1, x, y⟩

/-- `ctx.scale(s, s)`. -/
def scaleBy (s : ℚ) : Conform := ⟨s, 0, 0⟩

/-- Inverse image of a point (meaningful when `a ≠ 0`). -/
def applyInv (f : Conform) (p : ℚ × ℚ) : ℚ × ℚ :=
  ((p.1 - f.tx) / f.a, (p.2 - f.ty) / f.a)

end Conform

/-- The transform set up by the export compositor before `drawImage`
(App.tsx lines 745-755): translate to the pivot `(drawW/2, drawH/2)`,
translate by the rescaled user translation, scale by the user scale,
translate back from the pivot. -/
def exportTransform (drawW drawH userX userY userScale : ℚ) : Conform :=
  let pivotX := drawW / 2
  let pivotY := drawH / 2
  ((((Conform.idMap.comp (Conform.translate pivotX pivotY)).comp
      (Conform.translate userX userY)).comp
      (Conform.scaleBy userScale)).comp
      (Conform.translate (-pivotX) (-pivotY)))

/-- An RGBA pixel value. -/
structure RGBA where
  r : ℕ
  g : ℕ
  b : ℕ
  alpha : ℕ
deriving DecidableEq, Repr

/-- The export background fill `#FFFFFF` (App.tsx line 721), fully opaque. -/
def white : RGBA := ⟨255, 255, 255, 255⟩

/-- The initial state of every canvas pixel: transparent black. -/
def clearColor : RGBA := ⟨0, 0, 0, 0⟩

/-- `ctx.fillRect(x0, y0, w, h)` with fill color `c` over raster `ras`. -/
def fillRect (c : RGBA) (x0 y0 w h : ℚ) (ras : ℚ × ℚ → RGBA) : ℚ × ℚ → RGBA :=
  fun p => if x0 ≤ p.1 ∧ p.1 < x0 + w ∧ y0 ≤ p.2 ∧ p.2 < y0 + h then c else ras p

/-- Membership of an output point in the drawn image region: the image of
the rectangle `[0, w) × [0, h)` under the (nonsingular) transform `f`.
A singular transform (`a = 0`) draws nothing. -/
def inDrawnRegion (f : Conform) (w h : ℚ) (p : ℚ × ℚ) : Prop :=
  f.a ≠ 0 ∧ 0 ≤ (f.applyInv p).1 ∧ (f.applyInv p).1 < w
    ∧ 0 ≤ (f.applyInv p).2 ∧ (f.applyInv p).2 < h

instance (f : Conform) (w h : ℚ) (p : ℚ × ℚ) :
    Decidable (inDrawnRegion f w h p) := by
  unfold inDrawnRegion
  infer_instance

/-- `ctx.drawImage(img, 0, 0, w, h)` under current transform `f`: pixels in
the drawn region take the source image color sampled at the preimage,
all other pixels keep the value of the underlying raster `ras`. -/
def drawImage (f : Conform) (src : ℚ × ℚ → RGBA) (w h : ℚ)
    (ras : ℚ × ℚ → RGBA) : ℚ × ℚ → RGBA :=
  fun p => if inDrawnRegion f w h p then src (f.applyInv p) else ras p

/-- The full raster pipeline of `processImage` (App.tsx lines 719-758):
fill the whole `OUTPUT_SIZE` square white, then draw the image at
`(0, 0, drawW, drawH)` under the export transform. -/
def compositeExport (src : ℚ × ℚ → RGBA) (drawW drawH userX userY userScale : ℚ) :
    ℚ × ℚ → RGBA :=
  drawImage (exportTransform drawW drawH userX userY userScale) src drawW drawH
    (fillRect white 0 0 OUTPUT_SIZE OUTPUT_SIZE (fun _ => clearColor))

/-- The clamped wheel-zoom computation shared by CropModal.tsx lines 70-72
and PosterPreview lines 100-102:
`delta = -deltaY; sensitivity = 0.001;
newScale = max(minScale, min(maxScale, scale + delta * sensitivity))`. -/
def newScaleOfWheel (minScale maxScale scale deltaY : ℚ) : ℚ :=
  let delta := -deltaY
  let sensitivity := 1 / 1000
  max minScale (min maxScale (scale + delta * sensitivity))

/-- The crop transform held in CropModal state (`config`). -/
structure CropConfig where
  x : ℚ
  y : ℚ
  scale : ℚ
deriving DecidableEq, Repr

/-- The drag snapshot recorded on mouse-down (`dragStartRef.current`). -/
structure DragStart where
  x : ℚ
  y : ℚ
  initialX : ℚ
  initialY : ℚ
deriving DecidableEq, Repr

/-- The CropModal controller state: crop config, dragging flag, snapshot. -/
structure ModalState where
  config : CropConfig
  isDragging : Bool
  dragStart : Option DragStart
deriving DecidableEq, Repr

/-- CropModal.tsx lines 25-34: record the pointer position and the current
translation as a snapshot and start dragging; `config` is not touched. -/
def handleMouseDown (s : ModalState) (clientX clientY : ℚ) : ModalState :=
  { s with isDragging := true,
           dragStart := some ⟨clientX, clientY, s.config.x, s.config.y⟩ }

/-- CropModal.tsx lines 37-48: when dragging with a snapshot, set the
translation to snapshot-initial plus the pointer displacement. -/
def handleMouseMove (s : ModalState) (clientX clientY : ℚ) : ModalState :=
  match s.isDragging, s.dragStart with
  | true, some d =>
      let dx := clientX - d.x
      let dy := clientY - d.y
      { s with config := { s.config with x := d.initialX + dx, y := d.initialY + dy } }
  | _, _ => s

/-- CropModal.tsx lines 50-53: stop dragging and clear the snapshot. -/
def handleMouseUp (s : ModalState) : ModalState :=
  { s with isDragging := false, dragStart := none }

/-- CropModal.tsx lines 67-75: wheel zoom clamped to `[0.1, 5]`. -/
def handleWheel (s : ModalState) (deltaY : ℚ) : ModalState :=
  { s with config :=
      { s.config with scale := newScaleOfWheel (1 / 10) 5 s.config.scale deltaY } }

/-- The header image config of PosterPreview (`ImageConfig` in types.ts):
url may be absent, plus a translation and scale. -/
structure ImageConfig where
  url : Option String
  x : ℚ
  y : ℚ
  scale : ℚ
deriving DecidableEq, Repr

/-- The header drag snapshot (`dragState` in PosterPreview). -/
structure HeaderDragState where
  startX : ℚ
  startY : ℚ
  initialX : ℚ
  initialY : ℚ
deriving DecidableEq, Repr

/-- PosterPreview lines 63-74: header drag update; the pointer displacement
is divided by the poster display scale before being added. -/
def headerMouseMove (displayScale : ℚ) (d : HeaderDragState) (cfg : ImageConfig)
    (clientX clientY : ℚ) : ImageConfig :=
  let dx := (clientX - d.startX) / displayScale
  let dy := (clientY - d.startY) / displayScale
  { cfg with x := d.initialX + dx, y := d.initialY + dy }

/-- PosterPreview lines 95-107: header wheel zoom clamped to `[0.1, 10]`;
no listener is attached (no change) when there is no image url. -/
def headerWheel (cfg : ImageConfig) (deltaY : ℚ) : ImageConfig :=
  match cfg.url with
  | none => cfg
  | some _ =>
      { cfg with scale := newScaleOfWheel (1 / 10) 10 cfg.scale deltaY }

/-- A recorded per-item crop (the `crop` field of `HeaderImage` in types.ts). -/
structure CropData where
  x : ℚ
  y : ℚ
  scale : ℚ
deriving DecidableEq, Repr

/-- A gallery image (the `HeaderImage` interface in types.ts). -/
structure HeaderImage where
  id : String
  url : String
  crop : Option CropData
deriving DecidableEq, Repr

/-- `processImage` of `handleDownloadFunctional` (App.tsx lines 709-773) at
the success/failure level: decoding the url either fails (`img.onerror`
rejects the promise) or yields a decoded image that is rendered to a blob.
Decoding and rendering are parameters of the model (the browser supplies
them); the control flow is the code's. -/
def processImage {Img Blob : Type} (decode : String → Option Img)
    (render : Img → Option CropData → Blob) (img : HeaderImage) :
    Except String Blob :=
  match decode img.url with
  | none => .error img.url
  | some d => .ok (render d img.crop)

/-- The archive entry name for the image at 0-based index `i`
(App.tsx line 779: `image-${index + 1}.jpg`). -/
def entryName (i : ℕ) : String :=
  "image-" ++ toString (i + 1) ++ ".jpg"

/-- App.tsx lines 776-783: process every image of the batch independently;
a success adds the blob to the archive under `image-(i+1).jpg`, a failure
is logged with the failing index and the loop continues. Returns the
archive entries and the list of reported failing indices. -/
def exportBatch {Img Blob : Type} (decode : String → Option Img)
    (render : Img → Option CropData → Blob) (imgs : List HeaderImage) :
    List (String × Blob) × List ℕ :=
  imgs.enum.foldl
    (fun acc p =>
      match processImage decode render p.2 with
      | .ok blob => (acc.1 ++ [(entryName p.1, blob)], acc.2)
      | .error _ => (acc.1, acc.2 ++ [p.1]))
    ([], [])

-- Scratch checks on concrete inputs.
example : computeFit (.num 500) (.num 250) (.num 1000) = (.num 1000, .num 500) := by
  norm_num [computeFit, JSNum.div]
example : computeFit (.num 0) (.num 100) (.num 1000) = (.num 1000, .inf) := by
  norm_num [computeFit, JSNum.div]

/-- C1 (counterexample): the fit computation does NOT guard
`naturalWidth = 0` — on naturalWidth 0, naturalHeight 100, target edge 1000
it does not return `drawWidth = 1000, drawHeight = 1000` (it divides by the
zero aspect, giving Infinity for drawHeight). -/
theorem c1_counterexample :
    computeFit (.num 0) (.num 100) (.num 1000) ≠ (.num 1000, .num 1000) := by
  have h : computeFit (.num 0) (.num 100) (.num 1000) = (.num 1000, .inf) := by
    norm_num [computeFit, JSNum.div]
  rw [h]
  simp

/-- C1 (amended): with `naturalWidth = 0`, positive `naturalHeight` and
positive target edge, the fit computation returns `drawWidth = targetEdge`
but `drawHeight = Infinity`: the division by the zero aspect overflows to
a non-finite value, there is no zero-guard producing `(E, E)`. -/
theorem computeFit_zero_width (H E : ℚ) (hH : 0 < H) (hE : 0 < E) :
    computeFit (.num 0) (.num H) (.num E) = (.num E, JSNum.inf)
      ∧ ¬ (computeFit (.num 0) (.num H) (.num E)).2.isFinite := by
  have hH' : H ≠ 0 := ne_of_gt hH
  have hE' : E ≠ 0 := ne_of_gt hE
  constructor
  · simp [computeFit, JSNum.div, hH', hE', hE, zero_div]
  · simp [computeFit, JSNum.div, hH', hE', hE, zero_div, JSNum.isFinite]

/-- Witness for C1 amended at `H = 100, E = 1000`. -/
theorem computeFit_zero_width_witness :
    computeFit (.num 0) (.num 100) (.num 1000) = (.num 1000, JSNum.inf)
      ∧ ¬ (computeFit (.num 0) (.num 100) (.num 1000)).2.isFinite :=
  computeFit_zero_width 100 1000 (by norm_num) (by norm_num)

/-- C5: fit determinism — for positive naturalWidth, naturalHeight and
target edge the fit computation returns `drawWidth = targetEdge` and
`drawHeight = targetEdge * naturalH / naturalW`, a pure function of its
three inputs. -/
theorem computeFit_pos (w h E : ℚ) (hw : 0 < w) (hh : 0 < h) (hE : 0 < E) :
    computeFit (.num w) (.num h) (.num E) = (.num E, .num (E * h / w)) := by
  have hw' : w ≠ 0 := ne_of_gt hw
  have hh' : h ≠ 0 := ne_of_gt hh
  have hr : w / h ≠ 0 := div_ne_zero hw' hh'
  simp only [computeFit, JSNum.div, if_neg hh', if_neg hr, Prod.mk.injEq,
    JSNum.num.injEq, true_and]
  field_simp

/-- Witness for C5 at `w = 500, h = 250, E = 1000`. -/
theorem computeFit_pos_witness :
    computeFit (.num 500) (.num 250) (.num 1000)
      = (.num 1000, .num (1000 * 250 / 500)) :=
  computeFit_pos 500 250 1000 (by norm_num) (by norm_num) (by norm_num)

/-- C2: cross-resolution proportionality — for nonzero preview edge `V`
and output edge `O`, the rescaled translation satisfies
`rescaledX / O = x / V` and `rescaledY / O = y / V`. -/
theorem rescale_proportional (V O x y : ℚ) (hV : V ≠ 0) (hO : O ≠ 0) :
    (rescaleUserXY V O x y).1 / O = x / V
      ∧ (rescaleUserXY V O x y).2 / O = y / V := by
  constructor <;>
  · simp only [rescaleUserXY]
    field_simp
    ring

/-- Witness for C2 at the code's constants `V = PREVIEW_SIZE = 320`,
`O = OUTPUT_SIZE = 1000`, recorded translation `(16, 32)`. -/
theorem rescale_proportional_witness :
    (rescaleUserXY PREVIEW_SIZE OUTPUT_SIZE 16 32).1 / OUTPUT_SIZE
        = 16 / PREVIEW_SIZE
      ∧ (rescaleUserXY PREVIEW_SIZE OUTPUT_SIZE 16 32).2 / OUTPUT_SIZE
        = 32 / PREVIEW_SIZE :=
  rescale_proportional PREVIEW_SIZE OUTPUT_SIZE 16 32
    (by norm_num [PREVIEW_SIZE]) (by norm_num [OUTPUT_SIZE])

/-- C3: the export transform built by the compositor (translate to the
pivot at the center of the fit rectangle, translate by the rescaled user
translation, scale, translate back) maps every image point `p` to
`pivot + userTranslation + scale * (p - pivot)`. -/
theorem exportTransform_affine (drawW drawH userX userY s : ℚ) (p : ℚ × ℚ) :
    (exportTransform drawW drawH userX userY s).apply p
      = (drawW / 2 + userX + s * (p.1 - drawW / 2),
         drawH / 2 + userY + s * (p.2 - drawH / 2)) := by
  simp only [exportTransform, Conform.apply, Conform.comp, Conform.idMap,
    Conform.translate, Conform.scaleBy, Prod.mk.injEq]
  constructor <;> ring

/-- C4: the wheel-zoom scale invariant — from a scale inside
`[minScale, maxScale]` (with `minScale ≤ maxScale`, covering the modal's
`[0.1, 5]` and the header's `[0.1, 10]`), any wheel step lands back inside
the range; a step whose unclamped value reaches `maxScale` yields exactly
`maxScale` (so large zoom-in deltas converge there and stay), and
symmetrically for `minScale`. -/
theorem zoom_clamp_invariant (minScale maxScale s dY : ℚ)
    (hrange : minScale ≤ maxScale) (h1 : minScale ≤ s) (h2 : s ≤ maxScale) :
    (minScale ≤ newScaleOfWheel minScale maxScale s dY
        ∧ newScaleOfWheel minScale maxScale s dY ≤ maxScale)
      ∧ (maxScale ≤ s + -dY * (1 / 1000)
          → newScaleOfWheel minScale maxScale s dY = maxScale)
      ∧ (s + -dY * (1 / 1000) ≤ minScale
          → newScaleOfWheel minScale maxScale s dY = minScale) := by
  simp only [newScaleOfWheel]
  refine ⟨⟨le_max_left _ _, max_le hrange (min_le_left _ _)⟩, ?_, ?_⟩
  · intro h
    rw [min_eq_left h, max_eq_right hrange]
  · intro h
    rw [min_eq_right (h.trans hrange), max_eq_left h]

/-- Witness for C4 at the modal's range `[0.1, 5]`, scale 1, wheel delta 0. -/
theorem zoom_clamp_invariant_witness :
    ((1 : ℚ) / 10 ≤ newScaleOfWheel (1 / 10) 5 1 0
        ∧ newScaleOfWheel (1 / 10) 5 1 0 ≤ 5)
      ∧ ((5 : ℚ) ≤ 1 + -0 * (1 / 1000)
          → newScaleOfWheel (1 / 10) 5 1 0 = 5)
      ∧ ((1 : ℚ) + -0 * (1 / 1000) ≤ 1 / 10
          → newScaleOfWheel (1 / 10) 5 1 0 = 1 / 10) :=
  zoom_clamp_invariant (1 / 10) 5 1 0 (by norm_num) (by norm_num) (by norm_num)

/-- C6 (counterexample): starting from translation `(10, 20)` with start
pointer `(100, 100)`, a drag update at pointer `(130, 150)` does not yield
`(x, y) = (40, 50)`: the code gives `y = 20 + (150 - 100) = 70`, not 50. -/
theorem c6_counterexample :
    ¬ ((handleMouseMove (handleMouseDown ⟨⟨10, 20, 1⟩, false, none⟩ 100 100)
          130 150).config.x = 40
        ∧ (handleMouseMove (handleMouseDown ⟨⟨10, 20, 1⟩, false, none⟩ 100 100)
          130 150).config.y = 50) := by
  intro hcontra
  have hy := hcontra.2
  norm_num [handleMouseDown, handleMouseMove] at hy

/-- C6 (amended): drag linearity — a drag update sets the translation to
`initial + (pointer - startPointer) / displayScale`, with displayScale 1 in
the crop modal and the poster display scale in the header preview; at the
concrete input of the claim the result is `(40, 70)` (not `(40, 50)`). -/
theorem drag_linearity (x0 y0 sc px py cx cy ds : ℚ) (b : Bool)
    (d0 : Option DragStart) (u : Option String) (hds : ds ≠ 0) :
    ((handleMouseMove (handleMouseDown ⟨⟨x0, y0, sc⟩, b, d0⟩ px py) cx cy).config.x
        = x0 + (cx - px) / 1
      ∧ (handleMouseMove (handleMouseDown ⟨⟨x0, y0, sc⟩, b, d0⟩ px py) cx cy).config.y
        = y0 + (cy - py) / 1)
    ∧ ((headerMouseMove ds ⟨px, py, x0, y0⟩ ⟨u, x0, y0, sc⟩ cx cy).x
        = x0 + (cx - px) / ds
      ∧ (headerMouseMove ds ⟨px, py, x0, y0⟩ ⟨u, x0, y0, sc⟩ cx cy).y
        = y0 + (cy - py) / ds)
    ∧ ((handleMouseMove (handleMouseDown ⟨⟨10, 20, 1⟩, false, none⟩ 100 100)
          130 150).config.x = 40
      ∧ (handleMouseMove (handleMouseDown ⟨⟨10, 20, 1⟩, false, none⟩ 100 100)
          130 150).config.y = 70) := by
  refine ⟨⟨?_, ?_⟩, ⟨rfl, rfl⟩, ⟨?_, ?_⟩⟩ <;>
    norm_num [handleMouseDown, handleMouseMove, headerMouseMove]

/-- Witness for C6 amended at `ds = 2`, pointer data as in the claim. -/
theorem drag_linearity_witness :
    ((handleMouseMove (handleMouseDown ⟨⟨10, 20, 1⟩, false, none⟩ 100 100)
          130 150).config.x = 10 + (130 - 100) / 1
      ∧ (handleMouseMove (handleMouseDown ⟨⟨10, 20, 1⟩, false, none⟩ 100 100)
          130 150).config.y = 20 + (150 - 100) / 1)
    ∧ ((headerMouseMove 2 ⟨100, 100, 10, 20⟩ ⟨none, 10, 20, 1⟩ 130 150).x
        = 10 + (130 - 100) / 2
      ∧ (headerMouseMove 2 ⟨100, 100, 10, 20⟩ ⟨none, 10, 20, 1⟩ 130 150).y
        = 20 + (150 - 100) / 2)
    ∧ ((handleMouseMove (handleMouseDown ⟨⟨10, 20, 1⟩, false, none⟩ 100 100)
          130 150).config.x = 40
      ∧ (handleMouseMove (handleMouseDown ⟨⟨10, 20, 1⟩, false, none⟩ 100 100)
          130 150).config.y = 70) :=
  drag_linearity 10 20 1 100 100 130 150 2 false none none (by norm_num)

/-- C7: batch isolation — exporting three images where the second fails to
decode and the others decode packs exactly the first and third rendered
blobs (as `image-1.jpg` and `image-3.jpg`) and reports exactly the failing
index 1, the other outputs unaffected. -/
theorem batch_isolation {Img Blob : Type} (decode : String → Option Img)
    (render : Img → Option CropData → Blob) (a b c : HeaderImage)
    (da dc : Img) (ha : decode a.url = some da) (hb : decode b.url = none)
    (hc : decode c.url = some dc) :
    exportBatch decode render [a, b, c]
      = ([(entryName 0, render da a.crop), (entryName 2, render dc c.crop)],
         [1]) := by
  simp [exportBatch, processImage, List.enum, ha, hb, hc]

/-- Witness for C7 on three concrete images where only the second fails. -/
theorem batch_isolation_witness :
    exportBatch (fun u => if u = "u2" then none else some 0)
        (fun _ _ => (7 : ℕ))
        [⟨"a", "u1", none⟩, ⟨"b", "u2", none⟩, ⟨"c", "u3", none⟩]
      = ([(entryName 0, 7), (entryName 2, 7)], [1]) :=
  batch_isolation (fun u => if u = "u2" then none else some (0 : ℕ))
    (fun _ _ => (7 : ℕ)) ⟨"a", "u1", none⟩ ⟨"b", "u2", none⟩ ⟨"c", "u3", none⟩
    0 0 (by decide) (by decide) (by decide)

/-- C8: background fill — every output pixel of the export square that lies
outside the drawn (transformed) image region equals the opaque white
background exactly, never the transparent initial color. -/
theorem background_fill (src : ℚ × ℚ → RGBA) (drawW drawH userX userY s : ℚ)
    (p : ℚ × ℚ)
    (hp : ¬ inDrawnRegion (exportTransform drawW drawH userX userY s) drawW drawH p)
    (h1 : 0 ≤ p.1) (h2 : p.1 < OUTPUT_SIZE) (h3 : 0 ≤ p.2) (h4 : p.2 < OUTPUT_SIZE) :
    compositeExport src drawW drawH userX userY s p = white
      ∧ compositeExport src drawW drawH userX userY s p ≠ clearColor := by
  have hfill : compositeExport src drawW drawH userX userY s p = white := by
    simp only [compositeExport, drawImage, if_neg hp, fillRect]
    rw [if_pos]
    refine ⟨h1, ?_, h3, ?_⟩
    · simpa using h2
    · simpa using h4
  refine ⟨hfill, ?_⟩
  rw [hfill]
  simp [white, clearColor]

/-- Witness for C8: at `scale = 0.1` the drawn region is the centered
100-square, so the corner pixel `(999, 999)` is white. -/
theorem background_fill_witness :
    compositeExport (fun _ => white) 1000 1000 0 0 (1 / 10) (999, 999) = white
      ∧ compositeExport (fun _ => white) 1000 1000 0 0 (1 / 10) (999, 999)
          ≠ clearColor :=
  background_fill (fun _ => white) 1000 1000 0 0 (1 / 10) (999, 999)
    (by
      norm_num [inDrawnRegion, exportTransform, Conform.comp, Conform.idMap,
        Conform.translate, Conform.scaleBy, Conform.applyInv])
    (by norm_num) (by norm_num [OUTPUT_SIZE]) (by norm_num)
    (by norm_num [OUTPUT_SIZE])

/-- C9: no-op click — pointer-down only records the drag snapshot and never
mutates the crop config, and pointer-down immediately followed by
pointer-up leaves the config bit-identical. -/
theorem noop_click (s : ModalState) (px py : ℚ) :
    (handleMouseUp (handleMouseDown s px py)).config = s.config
      ∧ (handleMouseDown s px py).config = s.config :=
  ⟨rfl, rfl⟩

/-- C10: frame effects — a wheel step changes only the scale (x, y, and the
header url are unchanged) and a drag-move step changes only x and y (scale
and the header url are unchanged), in both controllers. -/
theorem frame_effects (s : ModalState) (cfg : ImageConfig)
    (d : HeaderDragState) (ds cx cy dY : ℚ) :
    ((handleWheel s dY).config.x = s.config.x
      ∧ (handleWheel s dY).config.y = s.config.y)
    ∧ (handleMouseMove s cx cy).config.scale = s.config.scale
    ∧ ((headerWheel cfg dY).x = cfg.x ∧ (headerWheel cfg dY).y = cfg.y
      ∧ (headerWheel cfg dY).url = cfg.url)
    ∧ ((headerMouseMove ds d cfg cx cy).scale = cfg.scale
      ∧ (headerMouseMove ds d cfg cx cy).url = cfg.url) := by
  refine ⟨⟨rfl, rfl⟩, ?_, ?_, ⟨rfl, rfl⟩⟩
  · rcases s with ⟨cf, b, d0⟩
    cases b <;> cases d0 <;> simp [handleMouseMove]
  · rcases cfg with ⟨u, x, y, sc⟩
    cases u <;> simp [headerWheel]
